import Mathlib

/-
Verification of the row-reconciliation / sheet-update engine of
`update_screening.py` (Tatsu001/screening-tool).

Shallow embedding conventions:
* a worksheet is a total function from (row, column) to a cell record
  carrying value, fill, font, alignment, border and number format,
  mirroring the openpyxl cell attributes the script touches;
* Python floats are modeled as exact rationals; Python `round` (banker's
  rounding, round-half-to-even) is modeled exactly on rationals;
* sequential cell mutations become nested functional updates, in the
  same order as the source lines;
* the yfinance fetch (`get_stock_data`) is an external adapter and is
  modeled as a parameter `f : String → Option StockData`; `time.sleep`
  calls and fetch attempts are recorded in an event trace;
* interactive input (screening criteria, manual code entry) is modeled
  as explicit parameters.
-/

namespace Screening

set_option maxRecDepth 100000

/-- Python value held by a spreadsheet cell: None, a string, or a number. -/
inductive CellValue where
  | empty : CellValue
  | str : String → CellValue
  | num : ℚ → CellValue
deriving DecidableEq, Repr

/-- openpyxl Alignment object (only the attributes the script sets). -/
structure CellAlign where
  horizontal : String
  vertical : String
  wrapText : Bool
deriving DecidableEq, Repr

/-- One spreadsheet cell: value plus the style attributes the script touches.
`fill` is the solid fill color (none = no fill), `border` is the border style
name, `numFmt` is openpyxl's number_format (default "General"). -/
structure Cell where
  value : CellValue
  fill : Option String
  font : Option String
  alignment : Option CellAlign
  border : Option String
  numFmt : String
deriving DecidableEq, Repr

/-- A worksheet: total map from (row, column) to a cell (1-based as in openpyxl). -/
abbrev Sheet := Nat → Nat → Cell

/-- A workbook: sheet names plus a map from name to sheet, as in openpyxl. -/
structure Workbook where
  sheetnames : List String
  sheets : String → Sheet

/-- Default cell of an untouched sheet. -/
def blankCell : Cell := ⟨CellValue.empty, none, none, none, none, "General"⟩

/-- A sheet with every cell untouched. -/
def blankSheet : Sheet := fun _ _ => blankCell

-- Color constants of the script (lines 44-51 of update_screening.py).
def INPUT_COLOR : String := "FFF9E6"
def PORTFOLIO_ALERT_COLOR : String := "FFE5CC"

/-- The `center_align` Alignment object (line 295). -/
def centerAlign : CellAlign := ⟨"center", "center", true⟩

/-- The left Alignment used for the memo column X (line 465). -/
def leftAlign : CellAlign := ⟨"left", "center", false⟩

def screeningName : String := "スクリーニング"
def portfolioName : String := "ポートフォリオ"

/-- Update a single cell of a sheet with a cell transformer. -/
def updCell (ws : Sheet) (r c : Nat) (g : Cell → Cell) : Sheet :=
  fun r' c' => if r' = r ∧ c' = c then g (ws r' c') else ws r' c'

/-- `cell.value = v` -/
def setValue (ws : Sheet) (r c : Nat) (v : CellValue) : Sheet :=
  updCell ws r c (fun x => ⟨v, x.fill, x.font, x.alignment, x.border, x.numFmt⟩)

/-- `cell.fill = f` -/
def setFill (ws : Sheet) (r c : Nat) (fl : Option String) : Sheet :=
  updCell ws r c (fun x => ⟨x.value, fl, x.font, x.alignment, x.border, x.numFmt⟩)

/-- `cell.alignment = a` -/
def setAlign (ws : Sheet) (r c : Nat) (a : Option CellAlign) : Sheet :=
  updCell ws r c (fun x => ⟨x.value, x.fill, x.font, a, x.border, x.numFmt⟩)

/-- `cell.border = b` -/
def setBorder (ws : Sheet) (r c : Nat) (b : Option String) : Sheet :=
  updCell ws r c (fun x => ⟨x.value, x.fill, x.font, x.alignment, b, x.numFmt⟩)

/-- `cell.number_format = s` -/
def setNumFmt (ws : Sheet) (r c : Nat) (s : String) : Sheet :=
  updCell ws r c (fun x => ⟨x.value, x.fill, x.font, x.alignment, x.border, s⟩)

/-- Python `range(a, b)` as a list. -/
def pyRange (a b : Nat) : List Nat := (List.range (b - a)).map (fun k => k + a)

/-- Truthiness of a Python cell value (None, "" and 0 are falsy). -/
def pyTruthy : CellValue → Bool
  | CellValue.empty => false
  | CellValue.str s => !(s == "")
  | CellValue.num q => !(q == 0)

/-- Python `str(...)` of a cell value. For numbers we use a rational rendering;
the script only ever consumes `str` on values it compares/uses as code strings. -/
def pyStr : CellValue → String
  | CellValue.empty => "None"
  | CellValue.str s => s
  | CellValue.num q => if q.den = 1 then toString q.num else toString q.num ++ "/" ++ toString q.den

/-- Drop leading whitespace characters from a character list. -/
def dropLeadWs : List Char → List Char
  | [] => []
  | c :: cs => if c.isWhitespace then dropLeadWs cs else c :: cs

/-- Python `str.strip()`: remove leading and trailing whitespace. Defined
on the character list so that it evaluates by kernel reduction. -/
def pyStrip (s : String) : String :=
  String.mk ((dropLeadWs (dropLeadWs s.data.reverse).reverse))

/-- Helper of `pySplit`: accumulate the current piece (reversed). -/
def pySplitGo (sep : Char) : List Char → List Char → List String
  | [], acc => [String.mk acc.reverse]
  | c :: cs, acc =>
      if c = sep then String.mk acc.reverse :: pySplitGo sep cs []
      else pySplitGo sep cs (c :: acc)

/-- Python `s.split(sep)` for a one-character separator: empty pieces are
kept, and the empty string yields `[""]`. -/
def pySplit (s : String) (sep : Char) : List String := pySplitGo sep s.data []

/-- Banker's rounding of a rational to an integer, as Python `round` does
on the mathematically exact value (ties go to the even integer). -/
def pyRoundInt (q : ℚ) : ℤ :=
  let fl : ℤ := ⌊q⌋
  let frac : ℚ := q - (fl : ℚ)
  if frac < 1/2 then fl
  else if 1/2 < frac then fl + 1
  else if fl % 2 = 0 then fl else fl + 1

/-- Python `round(q, nd)` on exact rationals. -/
def pyRound (q : ℚ) (nd : ℕ) : ℚ :=
  (pyRoundInt (q * (10 : ℚ) ^ nd) : ℚ) / (10 : ℚ) ^ nd

/-- The `format_type` argument of `format_value`. -/
inductive FType where
  | number : FType
  | percent : FType
  | currency : FType
deriving DecidableEq, Repr

/-- `format_value` (lines 203-228): None becomes the dash placeholder,
numbers are rounded per the format type. The `except` branch is
unreachable for numeric input and is not modeled. -/
def format_value (value : Option ℚ) (ftype : FType) (decimals : ℕ) : CellValue :=
  match value with
  | none => CellValue.str "-"
  | some v =>
    match ftype with
    | FType.number => CellValue.num (pyRound v decimals)
    | FType.percent => CellValue.num (pyRound v decimals)
    | FType.currency => CellValue.num (pyRound v 0)

/-- The `data` dict returned by a successful `get_stock_data` (lines 183-193).
`equity_ratio_pct` embeds the source field `equity_ratio` (renamed only for
lexical reasons); all numeric fields are optional exactly as in the source. -/
structure StockData where
  name : String
  market : String
  market_cap : Option ℚ
  equity_ratio_pct : Option ℚ
  trading_value : Option ℚ
  trailing_pe : Option ℚ
  price_to_book : Option ℚ
  return_on_equity : Option ℚ
  revenue_growth : Option ℚ
deriving DecidableEq, Repr

/-- Python truthiness of an optional number (`if data['market_cap']`):
None and 0 are falsy. -/
def pyTruthyOptQ : Option ℚ → Bool
  | none => false
  | some q => !(q == 0)

/-- `x / k if x else None` (line 359 pattern). -/
def pyOptDiv (x : Option ℚ) (k : ℚ) : Option ℚ :=
  if pyTruthyOptQ x then x.map (fun m => m / k) else none

/-- Region Clear Phase (lines 304-308): for every row in 6..20 and every
column in 1..24, set the cell value to None. Style attributes are not
touched by this loop. -/
def clearPhase (ws : Sheet) : Sheet :=
  (pyRange 6 21).foldl
    (fun w row => (pyRange 1 25).foldl (fun w2 col => setValue w2 row col CellValue.empty) w)
    ws

/-- Column I formula (line 404), parameterized by the row number. -/
def valueScoreFormula (row : Nat) : String :=
  let r := toString row
  "=IF(OR(A" ++ r ++ "=\"\",G" ++ r ++ "=\"\",H" ++ r ++ "=\"\"),\"\",IF(AND(G" ++ r
    ++ ">=5,G" ++ r ++ "<=10,H" ++ r ++ ">=0.5,H" ++ r ++ "<=0.75),20,IF(AND(G" ++ r
    ++ ">=5,G" ++ r ++ "<=10,H" ++ r ++ ">0.75,H" ++ r ++ "<=1),18,IF(AND(G" ++ r
    ++ ">10,G" ++ r ++ "<=15,H" ++ r ++ ">=0.5,H" ++ r ++ "<=0.75),18,IF(AND(G" ++ r
    ++ ">10,G" ++ r ++ "<=15,H" ++ r ++ ">0.75,H" ++ r ++ "<=1),15,10)))))"

/-- Column L formula (line 427). -/
def growthScoreFormula (row : Nat) : String :=
  let r := toString row
  "=IF(OR(A" ++ r ++ "=\"\",C" ++ r ++ "=\"\",J" ++ r ++ "=\"\"),\"\",IF(C" ++ r
    ++ "=\"グロース\",IF(J" ++ r ++ ">=30,20,IF(J" ++ r ++ ">=20,18,IF(J" ++ r
    ++ ">=15,15,IF(J" ++ r ++ ">=10,12,10)))),IF(AND(J" ++ r ++ ">=20,K" ++ r
    ++ ">=15),20,IF(AND(J" ++ r ++ ">=15,K" ++ r ++ ">=12),18,IF(AND(J" ++ r
    ++ ">=10,K" ++ r ++ ">=10),15,10)))))"

/-- Column S formula (line 438). -/
def businessScoreFormula (row : Nat) : String :=
  let r := toString row
  "=IF(A" ++ r ++ "=\"\",\"\",IF(M" ++ r ++ "=\"〇\",3,IF(M" ++ r ++ "=\"△\",1.5,0))+IF(N" ++ r
    ++ "=\"〇\",4,IF(N" ++ r ++ "=\"△\",2,0))+IF(O" ++ r ++ "=\"〇\",3,IF(O" ++ r
    ++ "=\"△\",1.5,0))+IF(P" ++ r ++ "=\"〇\",3,IF(P" ++ r ++ "=\"△\",1.5,0))+IF(Q" ++ r
    ++ "=\"〇\",4,IF(Q" ++ r ++ "=\"△\",2,0))+IF(R" ++ r ++ "=\"〇\",3,IF(R" ++ r
    ++ "=\"△\",1.5,0)))"

/-- Column U formula (line 448). -/
def totalScoreFormula (row : Nat) : String :=
  let r := toString row
  "=IF(A" ++ r ++ "=\"\",\"\",IF(I" ++ r ++ "=\"\",0,I" ++ r ++ ")+IF(L" ++ r ++ "=\"\",0,L" ++ r
    ++ ")+IF(S" ++ r ++ "=\"\",0,S" ++ r ++ ")+IF(T" ++ r ++ "=\"\",0,T" ++ r ++ "))"

/-- Column W formula (line 458). -/
def allocFormula (row : Nat) : String :=
  let r := toString row
  "=IF(OR(A" ++ r ++ "=\"\",V" ++ r ++ "<>\"〇\"),\"\",U" ++ r
    ++ "/SUMIF($V$6:$V$20,\"〇\",$U$6:$U$20))"

/-- B-column display name (line 346): `data['name'] if data['name'] and data['name'] != '-' else '-'`. -/
def dataName (d : StockData) : String :=
  if d.name ≠ "" ∧ d.name ≠ "-" then d.name else "-"

/-- D-column value (line 359): divide by 10^8 under Python truthiness, then currency format. -/
def mcapVal (d : StockData) : CellValue :=
  format_value (pyOptDiv d.market_cap 100000000) FType.currency 1

/-- E-column value (line 368). -/
def equityVal (d : StockData) : CellValue := format_value d.equity_ratio_pct FType.number 1

/-- F-column value (line 377). -/
def tradingVal (d : StockData) : CellValue := format_value d.trading_value FType.currency 1

/-- G-column value (line 386). -/
def perVal (d : StockData) : CellValue := format_value d.trailing_pe FType.number 1

/-- H-column value (line 395). -/
def pbrVal (d : StockData) : CellValue := format_value d.price_to_book FType.number 1

/-- J-column value (line 409). -/
def growthVal (d : StockData) : CellValue := format_value d.revenue_growth FType.percent 1

/-- K-column value (line 418). -/
def roeVal (d : StockData) : CellValue := format_value d.return_on_equity FType.percent 1

/-- One successful row materialization (lines 336-466), in source order.
Columns: A=1 .. X=24. `isP` is `is_portfolio_stock`. -/
def writeRow (ws : Sheet) (row : Nat) (code : String) (isP : Bool) (d : StockData) : Sheet :=
  let rowFill : Option String := some (if isP then PORTFOLIO_ALERT_COLOR else INPUT_COLOR)
  -- A列: 銘柄コード
  let w := setValue ws row 1 (CellValue.str code)
  let w := setFill w row 1 rowFill
  let w := setAlign w row 1 (some centerAlign)
  let w := setBorder w row 1 (some "thin")
  -- B列: 銘柄名
  let w := setValue w row 2 (CellValue.str (dataName d))
  let w := setFill w row 2 rowFill
  let w := setAlign w row 2 (some centerAlign)
  let w := setBorder w row 2 (some "thin")
  -- C列: 市場区分 (data.get('market', 'プライム'); the key is always present)
  let w := setValue w row 3 (CellValue.str d.market)
  let w := setFill w row 3 rowFill
  let w := setAlign w row 3 (some centerAlign)
  let w := setBorder w row 3 (some "thin")
  -- D列: 時価総額
  let w := setValue w row 4 (mcapVal d)
  let w := if mcapVal d ≠ CellValue.str "-" then setNumFmt w row 4 "#,##0" else w
  let w := setFill w row 4 rowFill
  let w := setAlign w row 4 (some centerAlign)
  let w := setBorder w row 4 (some "thin")
  -- E列: 自己資本比率
  let w := setValue w row 5 (equityVal d)
  let w := if equityVal d ≠ CellValue.str "-" then setNumFmt w row 5 "0.0" else w
  let w := setFill w row 5 rowFill
  let w := setAlign w row 5 (some centerAlign)
  let w := setBorder w row 5 (some "thin")
  -- F列: 売買代金
  let w := setValue w row 6 (tradingVal d)
  let w := if tradingVal d ≠ CellValue.str "-" then setNumFmt w row 6 "#,##0" else w
  let w := setFill w row 6 rowFill
  let w := setAlign w row 6 (some centerAlign)
  let w := setBorder w row 6 (some "thin")
  -- G列: PER
  let w := setValue w row 7 (perVal d)
  let w := if perVal d ≠ CellValue.str "-" then setNumFmt w row 7 "0.0" else w
  let w := setFill w row 7 rowFill
  let w := setAlign w row 7 (some centerAlign)
  let w := setBorder w row 7 (some "thin")
  -- H列: PBR
  let w := setValue w row 8 (pbrVal d)
  let w := if pbrVal d ≠ CellValue.str "-" then setNumFmt w row 8 "0.0" else w
  let w := setFill w row 8 rowFill
  let w := setAlign w row 8 (some centerAlign)
  let w := setBorder w row 8 (some "thin")
  -- I列: バリュースコア（数式）
  let w := setValue w row 9 (CellValue.str (valueScoreFormula row))
  let w := setAlign w row 9 (some centerAlign)
  let w := setBorder w row 9 (some "thin")
  -- J列: 売上成長率
  let w := setValue w row 10 (growthVal d)
  let w := if growthVal d ≠ CellValue.str "-" then setNumFmt w row 10 "0.0" else w
  let w := setFill w row 10 rowFill
  let w := setAlign w row 10 (some centerAlign)
  let w := setBorder w row 10 (some "thin")
  -- K列: ROE
  let w := setValue w row 11 (roeVal d)
  let w := if roeVal d ≠ CellValue.str "-" then setNumFmt w row 11 "0.0" else w
  let w := setFill w row 11 rowFill
  let w := setAlign w row 11 (some centerAlign)
  let w := setBorder w row 11 (some "thin")
  -- L列: 成長性スコア（数式）
  let w := setValue w row 12 (CellValue.str (growthScoreFormula row))
  let w := setAlign w row 12 (some centerAlign)
  let w := setBorder w row 12 (some "thin")
  -- M-R列: チェックリスト（空欄 - 手動入力）: fill/alignment/border only
  let w := (pyRange 13 19).foldl
    (fun w2 col => setBorder (setAlign (setFill w2 row col rowFill) row col (some centerAlign)) row col (some "thin")) w
  -- S列: 事業性スコア（数式）
  let w := setValue w row 19 (CellValue.str (businessScoreFormula row))
  let w := setAlign w row 19 (some centerAlign)
  let w := setBorder w row 19 (some "thin")
  -- T列: トレンドスコア（空欄 - 手動入力）
  let w := setFill w row 20 rowFill
  let w := setAlign w row 20 (some centerAlign)
  let w := setBorder w row 20 (some "thin")
  -- U列: 総合スコア（数式）
  let w := setValue w row 21 (CellValue.str (totalScoreFormula row))
  let w := setAlign w row 21 (some centerAlign)
  let w := setBorder w row 21 (some "thin")
  -- V列: 投資検討（空欄 - 手動入力）
  let w := setFill w row 22 rowFill
  let w := setAlign w row 22 (some centerAlign)
  let w := setBorder w row 22 (some "thin")
  -- W列: 投資比率（数式）
  let w := setValue w row 23 (CellValue.str (allocFormula row))
  let w := setNumFmt w row 23 "0.0%"
  let w := setAlign w row 23 (some centerAlign)
  let w := setBorder w row 23 (some "thin")
  -- X列: メモ（空欄 - 手動入力）
  let w := setFill w row 24 rowFill
  let w := setAlign w row 24 (some leftAlign)
  let w := setBorder w row 24 (some "thin")
  w

/-- An observable event of the update cycle: one fetch attempt (the code it
was issued for) or one blocking `time.sleep` (its duration in seconds). -/
inductive Event where
  | fetchEv : String → Event
  | sleepEv : ℚ → Event
deriving DecidableEq, Repr

/-- State of the materialization loop (lines 310-471): the screening sheet,
the physical row cursor `current_row`, the `portfolio_alerts` list and the
trace of fetch/sleep events. -/
structure MState where
  sheet : Sheet
  row : Nat
  alerts : List String
  trace : List Event

/-- One iteration of the materialization loop (lines 313-471). On fetch
failure the row cursor advances and `continue` skips the `time.sleep(0.5)`
at the bottom of the loop body; on success the row is written, the cursor
advances and the sleep runs. -/
def materializeStep (f : String → Option StockData) (pstocks : List String)
    (st : MState) (code0 : String) : MState :=
  let code := pyStrip code0
  let isP : Bool := pstocks.contains code
  let alerts := if isP then st.alerts ++ [code] else st.alerts
  let trace := st.trace ++ [Event.fetchEv code]
  match f code with
  | none => ⟨st.sheet, st.row + 1, alerts, trace⟩
  | some d =>
      ⟨writeRow st.sheet st.row code isP d, st.row + 1, alerts,
        trace ++ [Event.sleepEv (1/2)]⟩

/-- The whole materialization loop over the working list. -/
def materializeAll (f : String → Option StockData) (pstocks : List String)
    (codes : List String) (st : MState) : MState :=
  codes.foldl (materializeStep f pstocks) st

/-- `get_portfolio_stocks` (lines 230-253): read A7..A11 of the portfolio
sheet; truthy values whose trimmed string form is non-empty are collected.
The Python `set` is modeled as a list used only through membership. -/
def get_portfolio_stocks (wb : Workbook) : List String :=
  if wb.sheetnames.contains portfolioName = false then []
  else
    (pyRange 7 12).foldl
      (fun acc row =>
        let v := (wb.sheets portfolioName) row 1
        if pyTruthy v.value && !((pyStrip (pyStr v.value)) == "") then acc ++ [pyStrip (pyStr v.value)]
        else acc)
      []

/-- The final loop state of one update cycle on a workbook: read the
portfolio holdings, clear the row window of the screening sheet, then
materialize every code of the working list starting at row 6. -/
def runState (wb : Workbook) (f : String → Option StockData)
    (stock_codes : List String) : MState :=
  let pstocks := get_portfolio_stocks wb
  let cleared := clearPhase (wb.sheets screeningName)
  materializeAll f pstocks stock_codes ⟨cleared, 6, [], []⟩

/-- Observable outcome of `update_screening_sheet` (lines 255-497).
`exitCode = some 1` models `sys.exit(1)`; `persisted` is the on-disk
workbook after the run (`none` = the file could not be opened / does not
exist; a failed save leaves the original file untouched). -/
structure RunOutcome where
  exitCode : Option Nat
  persisted : Option Workbook
  alerts : List String
  trace : List Event

/-- `update_screening_sheet` (lines 255-497). `file` is the openable
content of the workbook (`none`: `load_workbook` raises and the script
exits 1 before touching anything); a missing screening sheet exits 1
before any cell is modified; `saveOk = false` models a failing
`wb.save`, which exits 1 leaving the persisted file unchanged. -/
def update_screening_run (file : Option Workbook) (saveOk : Bool)
    (f : String → Option StockData) (stock_codes : List String) : RunOutcome :=
  match file with
  | none => ⟨some 1, none, [], []⟩
  | some wb =>
    if wb.sheetnames.contains screeningName = false then
      ⟨some 1, some wb, [], []⟩
    else
      let final := runState wb f stock_codes
      let wb' : Workbook :=
        ⟨wb.sheetnames, fun n => if n = screeningName then final.sheet else wb.sheets n⟩
      if saveOk then ⟨none, some wb', final.alerts, final.trace⟩
      else ⟨some 1, some wb, final.alerts, final.trace⟩

/-- Helper of `dedupFirst`: keep elements not yet seen, in order. -/
def dedupGo (seen : List String) : List String → List String
  | [] => []
  | c :: cs => if seen.contains c then dedupGo seen cs else c :: dedupGo (seen ++ [c]) cs

/-- `list(dict.fromkeys(stock_codes))` (line 828): de-duplicate keeping the
first occurrence, preserving order. -/
def dedupFirst (l : List String) : List String := dedupGo [] l

/-- Manual entry (lines 804-815): each non-empty input line is split on
commas and each piece trimmed; the loop stops at the first empty line. -/
def manualCodes (lines : List String) : List String :=
  ((lines.map (fun l => pyStrip l)).takeWhile (fun l => !(l == ""))).flatMap
    (fun l => (pySplit l (Char.ofNat 44)).map (fun c => pyStrip c))

/-- Line 828, applied to whichever source produced `raw`. -/
def buildWorkingList (raw : List String) : List String := dedupFirst raw

/-- The screening criteria dict (lines 499-568). `min_market_cap` is always
a number (a user value or the 10^10 default); the others are optional. -/
structure Criteria where
  min_market_cap : ℚ
  min_per : Option ℚ
  max_per : Option ℚ
  min_pbr : Option ℚ
  max_pbr : Option ℚ
  min_roe : Option ℚ
  min_equity_ratio_pct : Option ℚ
  min_trading_value : Option ℚ
deriving DecidableEq, Repr

/-- One optional minimum criterion: if set, the field must be present and
not below the minimum (`data[f] is None or data[f] < min` fails). -/
def ckMin (field : Option ℚ) (mn : Option ℚ) : Bool :=
  match mn with
  | none => true
  | some m => match field with
    | none => false
    | some v => !(v < m)

/-- One optional maximum criterion: if set, the field must be present and
not above the maximum. -/
def ckMax (field : Option ℚ) (mx : Option ℚ) : Bool :=
  match mx with
  | none => true
  | some m => match field with
    | none => false
    | some v => !(m < v)

/-- `check_screening_criteria` (lines 570-620). The sequence of early
`return False` checks is an and-chain; the market-cap check is mandatory. -/
def check_screening_criteria (d : StockData) (cr : Criteria) : Bool :=
  (match d.market_cap with
   | none => false
   | some mc => !(mc < cr.min_market_cap)) &&
  ckMin d.trailing_pe cr.min_per &&
  ckMax d.trailing_pe cr.max_per &&
  ckMin d.price_to_book cr.min_pbr &&
  ckMax d.price_to_book cr.max_pbr &&
  ckMin d.return_on_equity cr.min_roe &&
  ckMin d.equity_ratio_pct cr.min_equity_ratio_pct &&
  ckMin d.trading_value cr.min_trading_value

/-- The hard-coded candidate list of `auto_screening` (lines 637-646),
transcribed verbatim (including the duplicated '6273'). -/
def candidate_codes : List String :=
  ["7203", "6758", "6920", "4063", "8035", "9984", "6861", "6501",
   "7974", "4502", "4503", "8306", "8316", "7751", "6971", "6702",
   "4519", "4568", "6954", "6981", "4324", "9433", "2914", "4911",
   "6367", "7267", "4452", "4523", "6178", "3382", "4704", "9697",
   "6098", "2801", "8058", "8031", "3861", "4661", "6952", "7269",
   "6976", "6645", "4188", "4901", "7733", "6273", "6479", "7832",
   "4543", "6503", "7201", "7270", "9020", "9021", "4755", "6273"]

/-- The `auto_screening` scan loop (lines 658-677): stop as soon as
`max_stocks` matches were collected (checked at the top of each
iteration); failed fetches are skipped; matching codes are appended. -/
def autoLoopGo (f : String → Option StockData) (cr : Criteria) (maxStocks : Nat) :
    List String → List String → List String
  | [], matched => matched
  | c :: rest, matched =>
    if maxStocks ≤ matched.length then matched
    else
      match f c with
      | none => autoLoopGo f cr maxStocks rest matched
      | some d =>
          if check_screening_criteria d cr then autoLoopGo f cr maxStocks rest (matched ++ [c])
          else autoLoopGo f cr maxStocks rest matched

/-- `auto_screening` (lines 622-688): scan the candidate list with the
user criteria. -/
def auto_screening (f : String → Option StockData) (cr : Criteria)
    (max_stocks : Nat) : List String :=
  autoLoopGo f cr max_stocks candidate_codes []

/-- Whether a trace has a delay between every two consecutive fetch
attempts: no two fetch events are adjacent. With only fetch and sleep
events this is exactly "some sleep stands between consecutive fetches". -/
def noAdjFetch : List Event → Bool
  | Event.fetchEv _ :: Event.fetchEv _ :: _ => false
  | _ :: rest => noAdjFetch rest
  | [] => true

lemma updCell_ne {ws : Sheet} {r c r' c' : Nat} {g : Cell → Cell}
    (h : ¬(r' = r ∧ c' = c)) : updCell ws r c g r' c' = ws r' c' := by
  simp [updCell, h]

lemma updCell_self (ws : Sheet) (r c : Nat) (g : Cell → Cell) :
    updCell ws r c g r c = g (ws r c) := by
  simp [updCell]

lemma mem_pyRange {a b x : Nat} : x ∈ pyRange a b ↔ a ≤ x ∧ x < b := by
  simp only [pyRange, List.mem_map, List.mem_range]
  constructor
  · rintro ⟨k, hk, rfl⟩
    omega
  · rintro ⟨h1, h2⟩
    exact ⟨x - a, by omega, by omega⟩

/-- What clearing one value does to a cell. -/
def clearedCell (x : Cell) : Cell :=
  ⟨CellValue.empty, x.fill, x.font, x.alignment, x.border, x.numFmt⟩

lemma foldl_setValue_empty_apply (cols : List Nat) (ws : Sheet) (row r c : Nat) :
    (cols.foldl (fun w2 col => setValue w2 row col CellValue.empty) ws) r c =
      if r = row ∧ c ∈ cols then clearedCell (ws r c) else ws r c := by
  induction cols generalizing ws with
  | nil => simp
  | cons d ds ih =>
    rw [List.foldl_cons, ih]
    by_cases hr : r = row
    · subst hr
      by_cases hc : c = d
      · subst hc
        by_cases hmem : c ∈ ds <;>
          simp [hmem, setValue, updCell, clearedCell]
      · by_cases hmem : c ∈ ds <;>
          simp [hmem, hc, setValue, updCell, clearedCell]
    · simp [hr, setValue, updCell]

lemma foldl_clear_rows_apply (rows cols : List Nat) (ws : Sheet) (r c : Nat) :
    (rows.foldl
      (fun w row => cols.foldl (fun w2 col => setValue w2 row col CellValue.empty) w) ws) r c =
      if r ∈ rows ∧ c ∈ cols then clearedCell (ws r c) else ws r c := by
  induction rows generalizing ws with
  | nil => simp
  | cons d ds ih =>
    rw [List.foldl_cons, ih, foldl_setValue_empty_apply]
    by_cases hmem : r ∈ ds
    · by_cases hc : c ∈ cols <;> by_cases hr : r = d <;>
        simp [hmem, hc, hr, clearedCell]
    · by_cases hc : c ∈ cols <;> by_cases hr : r = d <;>
        simp [hmem, hc, hr, clearedCell]

/-- Pointwise description of the Region Clear Phase: inside rows 6..20 and
columns 1..24 the value becomes empty and nothing else changes; outside
that window the cell is untouched. -/
lemma clearPhase_apply (ws : Sheet) (r c : Nat) :
    clearPhase ws r c =
      if (6 ≤ r ∧ r ≤ 20) ∧ (1 ≤ c ∧ c ≤ 24) then clearedCell (ws r c) else ws r c := by
  rw [clearPhase, foldl_clear_rows_apply]
  have h1 : (r ∈ pyRange 6 21 ∧ c ∈ pyRange 1 25) ↔ ((6 ≤ r ∧ r ≤ 20) ∧ (1 ≤ c ∧ c ≤ 24)) := by
    simp only [mem_pyRange]
    omega
  rw [if_congr h1 rfl rfl]

lemma pyRange_13_19 : pyRange 13 19 = [13, 14, 15, 16, 17, 18] := by rfl

/-- Derived pointwise description of `writeRow` at its own row: what the
cell at column `c` becomes, as a function of the old cell. Proven equal to
the sequential source translation in `writeRow_apply`. -/
def writtenCell (code : String) (isP : Bool) (d : StockData) (row c : Nat) (old : Cell) : Cell :=
  let fl : Option String := some (if isP then PORTFOLIO_ALERT_COLOR else INPUT_COLOR)
  if c = 1 then ⟨CellValue.str code, fl, old.font, some centerAlign, some "thin", old.numFmt⟩
  else if c = 2 then ⟨CellValue.str (dataName d), fl, old.font, some centerAlign, some "thin", old.numFmt⟩
  else if c = 3 then ⟨CellValue.str d.market, fl, old.font, some centerAlign, some "thin", old.numFmt⟩
  else if c = 4 then
    ⟨mcapVal d, fl, old.font, some centerAlign, some "thin",
      if mcapVal d ≠ CellValue.str "-" then "#,##0" else old.numFmt⟩
  else if c = 5 then
    ⟨equityVal d, fl, old.font, some centerAlign, some "thin",
      if equityVal d ≠ CellValue.str "-" then "0.0" else old.numFmt⟩
  else if c = 6 then
    ⟨tradingVal d, fl, old.font, some centerAlign, some "thin",
      if tradingVal d ≠ CellValue.str "-" then "#,##0" else old.numFmt⟩
  else if c = 7 then
    ⟨perVal d, fl, old.font, some centerAlign, some "thin",
      if perVal d ≠ CellValue.str "-" then "0.0" else old.numFmt⟩
  else if c = 8 then
    ⟨pbrVal d, fl, old.font, some centerAlign, some "thin",
      if pbrVal d ≠ CellValue.str "-" then "0.0" else old.numFmt⟩
  else if c = 9 then
    ⟨CellValue.str (valueScoreFormula row), old.fill, old.font, some centerAlign, some "thin", old.numFmt⟩
  else if c = 10 then
    ⟨growthVal d, fl, old.font, some centerAlign, some "thin",
      if growthVal d ≠ CellValue.str "-" then "0.0" else old.numFmt⟩
  else if c = 11 then
    ⟨roeVal d, fl, old.font, some centerAlign, some "thin",
      if roeVal d ≠ CellValue.str "-" then "0.0" else old.numFmt⟩
  else if c = 12 then
    ⟨CellValue.str (growthScoreFormula row), old.fill, old.font, some centerAlign, some "thin", old.numFmt⟩
  else if 13 ≤ c ∧ c ≤ 18 then ⟨old.value, fl, old.font, some centerAlign, some "thin", old.numFmt⟩
  else if c = 19 then
    ⟨CellValue.str (businessScoreFormula row), old.fill, old.font, some centerAlign, some "thin", old.numFmt⟩
  else if c = 20 then ⟨old.value, fl, old.font, some centerAlign, some "thin", old.numFmt⟩
  else if c = 21 then
    ⟨CellValue.str (totalScoreFormula row), old.fill, old.font, some centerAlign, some "thin", old.numFmt⟩
  else if c = 22 then ⟨old.value, fl, old.font, some centerAlign, some "thin", old.numFmt⟩
  else if c = 23 then
    ⟨CellValue.str (allocFormula row), old.fill, old.font, some centerAlign, some "thin", "0.0%"⟩
  else if c = 24 then ⟨old.value, fl, old.font, some leftAlign, some "thin", old.numFmt⟩
  else old

/-- `writeRow` only modifies its own row, and on that row acts cellwise as
`writtenCell`. -/
lemma writeRow_apply (ws : Sheet) (row : Nat) (code : String) (isP : Bool) (d : StockData)
    (r c : Nat) :
    writeRow ws row code isP d r c =
      if r = row then writtenCell code isP d row c (ws row c) else ws r c := by
  by_cases hr : r = row
  · subst hr
    rw [if_pos rfl]
    by_cases h25 : c < 25
    · interval_cases c <;>
        ((try simp [writeRow, writtenCell, setValue, setFill, setAlign, setBorder, setNumFmt,
            updCell, pyRange_13_19, ite_apply]) <;>
          (try (split <;> simp_all)))
    · have hc : ∀ k : Nat, k < 25 → ¬(c = k) := by omega
      simp [writeRow, writtenCell, setValue, setFill, setAlign, setBorder, setNumFmt,
        updCell, pyRange_13_19, ite_apply, hc 1 (by omega), hc 2 (by omega), hc 3 (by omega),
        hc 4 (by omega), hc 5 (by omega), hc 6 (by omega), hc 7 (by omega), hc 8 (by omega),
        hc 9 (by omega), hc 10 (by omega), hc 11 (by omega), hc 12 (by omega), hc 13 (by omega),
        hc 14 (by omega), hc 15 (by omega), hc 16 (by omega), hc 17 (by omega), hc 18 (by omega),
        hc 19 (by omega), hc 20 (by omega), hc 21 (by omega), hc 22 (by omega), hc 23 (by omega),
        hc 24 (by omega), show ¬(13 ≤ c ∧ c ≤ 18) by omega]
  · rw [if_neg hr]
    simp [writeRow, setValue, setFill, setAlign, setBorder, setNumFmt,
      updCell, pyRange_13_19, ite_apply, hr]

lemma materializeAll_cons (f : String → Option StockData) (p : List String)
    (c0 : String) (cs : List String) (st : MState) :
    materializeAll f p (c0 :: cs) st = materializeAll f p cs (materializeStep f p st c0) := rfl

lemma materializeStep_row (f : String → Option StockData) (p : List String)
    (st : MState) (c0 : String) : (materializeStep f p st c0).row = st.row + 1 := by
  rcases hf : f (pyStrip c0) with _ | d <;> simp [materializeStep, hf]

lemma materializeStep_sheet_ne (f : String → Option StockData) (p : List String)
    (st : MState) (c0 : String) {r c : Nat} (h : r ≠ st.row) :
    (materializeStep f p st c0).sheet r c = st.sheet r c := by
  rcases hf : f (pyStrip c0) with _ | d <;>
    simp [materializeStep, hf, writeRow_apply, h]

lemma materializeAll_row (f : String → Option StockData) (p : List String)
    (codes : List String) : ∀ st : MState,
    (materializeAll f p codes st).row = st.row + codes.length := by
  induction codes with
  | nil => intro st; simp [materializeAll]
  | cons c0 cs ih =>
    intro st
    rw [materializeAll_cons, ih, materializeStep_row, List.length_cons]
    omega

lemma materializeAll_sheet_lt (f : String → Option StockData) (p : List String)
    (codes : List String) : ∀ (st : MState) (r c : Nat), r < st.row →
    (materializeAll f p codes st).sheet r c = st.sheet r c := by
  induction codes with
  | nil => intro st r c _; rfl
  | cons c0 cs ih =>
    intro st r c hr
    rw [materializeAll_cons, ih _ _ _ (by rw [materializeStep_row]; omega)]
    exact materializeStep_sheet_ne f p st c0 (by omega)

/-- Where the `i`-th working-list entry lands: physical row `st.row + i`;
a failed fetch leaves the cell as it was, a successful fetch rewrites it
per `writtenCell`. -/
lemma materializeAll_sheet_at (f : String → Option StockData) (p : List String)
    (codes : List String) : ∀ (st : MState) (i : Nat) (hi : i < codes.length) (c : Nat),
    (materializeAll f p codes st).sheet (st.row + i) c =
      match f (pyStrip codes[i]) with
      | none => st.sheet (st.row + i) c
      | some d =>
          writtenCell (pyStrip codes[i]) (p.contains (pyStrip codes[i])) d
            (st.row + i) c (st.sheet (st.row + i) c) := by
  induction codes with
  | nil => intro st i hi c; simp at hi
  | cons c0 cs ih =>
    intro st i hi c
    rw [materializeAll_cons]
    match i with
    | 0 =>
      rw [materializeAll_sheet_lt f p cs _ _ _ (by rw [materializeStep_row]; omega)]
      simp only [List.getElem_cons_zero, Nat.add_zero]
      rcases hf : f (pyStrip c0) with _ | d <;>
        simp [materializeStep, hf, writeRow_apply]
    | j + 1 =>
      have hj : j < cs.length := by simpa using hi
      have h1 : st.row + (j + 1) = (materializeStep f p st c0).row + j := by
        rw [materializeStep_row]; omega
      have h2 := ih (materializeStep f p st c0) j hj c
      rw [h1, h2, List.getElem_cons_succ]
      have hne : (materializeStep f p st c0).row + j ≠ st.row := by
        rw [materializeStep_row]; omega
      rw [materializeStep_sheet_ne f p st c0 hne]

/-- The event trace of the loop: one fetch per code in order, a 0.5s sleep
after each successful fetch, and nothing after a failed fetch. -/
lemma materializeAll_trace (f : String → Option StockData) (p : List String)
    (codes : List String) : ∀ st : MState,
    (materializeAll f p codes st).trace =
      st.trace ++ codes.flatMap (fun c0 =>
        Event.fetchEv (pyStrip c0) :: (match f (pyStrip c0) with
          | some _ => [Event.sleepEv (1/2)]
          | none => [])) := by
  induction codes with
  | nil => intro st; simp [materializeAll]
  | cons c0 cs ih =>
    intro st
    rw [materializeAll_cons, ih]
    rcases hf : f (pyStrip c0) with _ | d <;>
      simp [materializeStep, hf, List.append_assoc]

/-- Only codes of the working list (trimmed) can newly appear as string
values in column A. -/
lemma materializeAll_colA (f : String → Option StockData) (p : List String)
    (codes : List String) : ∀ (st : MState) (r : Nat) (s : String),
    ((materializeAll f p codes st).sheet r 1).value = CellValue.str s →
    (st.sheet r 1).value = CellValue.str s ∨ s ∈ codes.map (fun c0 => pyStrip c0) := by
  induction codes with
  | nil => intro st r s h; exact Or.inl h
  | cons c0 cs ih =>
    intro st r s h
    rw [materializeAll_cons] at h
    rcases ih _ _ _ h with h' | h'
    · by_cases hr : r = st.row
      · subst hr
        rcases hf : f (pyStrip c0) with _ | d
        · left
          simpa [materializeStep, hf] using h'
        · right
          have hv : ((materializeStep f p st c0).sheet st.row 1).value
              = CellValue.str (pyStrip c0) := by
            simp [materializeStep, hf, writeRow_apply, writtenCell]
          rw [h'] at hv
          have : s = pyStrip c0 := by
            simpa using hv
          simp [this]
      · left
        rw [materializeStep_sheet_ne f p st c0 hr] at h'
        exact h'
    · right
      simp [h']

lemma dedupGo_mem : ∀ (l seen : List String) (x : String),
    x ∈ dedupGo seen l ↔ x ∈ l ∧ x ∉ seen := by
  intro l
  induction l with
  | nil => simp [dedupGo]
  | cons c cs ih =>
    intro seen x
    rw [dedupGo]
    by_cases hc : seen.contains c
    · rw [if_pos hc, ih]
      have hcm : c ∈ seen := by simpa using hc
      simp only [List.mem_cons]
      constructor
      · rintro ⟨h1, h2⟩
        exact ⟨Or.inr h1, h2⟩
      · rintro ⟨h1 | h1, h2⟩
        · subst h1
          exact absurd hcm h2
        · exact ⟨h1, h2⟩
    · rw [if_neg hc]
      have hcm : c ∉ seen := by simpa using hc
      simp only [List.mem_cons, ih, List.mem_append, List.mem_singleton]
      by_cases hx : x = c
      · subst hx
        simp [hcm]
      · simp [hx]
  
lemma dedupGo_nodup : ∀ (l seen : List String), (dedupGo seen l).Nodup := by
  intro l
  induction l with
  | nil => intro seen; simp [dedupGo]
  | cons c cs ih =>
    intro seen
    rw [dedupGo]
    by_cases hc : seen.contains c
    · rw [if_pos hc]
      exact ih seen
    · rw [if_neg hc]
      refine List.nodup_cons.mpr ⟨?_, ih (seen ++ [c])⟩
      intro hmem
      rcases (dedupGo_mem cs (seen ++ [c]) c).mp hmem with ⟨_, habs⟩
      simp at habs

lemma dedupGo_length_le : ∀ (l seen : List String), (dedupGo seen l).length ≤ l.length := by
  intro l
  induction l with
  | nil => intro seen; simp [dedupGo]
  | cons c cs ih =>
    intro seen
    rw [dedupGo]
    by_cases hc : seen.contains c
    · rw [if_pos hc]
      exact le_trans (ih seen) (by simp)
    · rw [if_neg hc]
      simpa using Nat.succ_le_succ (ih (seen ++ [c]))

lemma dedupFirst_mem (l : List String) (x : String) : x ∈ dedupFirst l ↔ x ∈ l := by
  rw [dedupFirst, dedupGo_mem]
  simp

lemma dedupFirst_nodup (l : List String) : (dedupFirst l).Nodup := dedupGo_nodup l []

lemma dedupFirst_length_le (l : List String) : (dedupFirst l).length ≤ l.length :=
  dedupGo_length_le l []

lemma autoLoopGo_length_le (f : String → Option StockData) (cr : Criteria) (k : Nat) :
    ∀ (cs : List String) (m : List String), m.length ≤ k →
    (autoLoopGo f cr k cs m).length ≤ k := by
  intro cs
  induction cs with
  | nil => intro m h; simpa [autoLoopGo] using h
  | cons c rest ih =>
    intro m h
    rw [autoLoopGo]
    by_cases hk : k ≤ m.length
    · rw [if_pos hk]; exact h
    · rw [if_neg hk]
      rcases hf : f c with _ | d
      · exact ih m h
      · show (if check_screening_criteria d cr = true then autoLoopGo f cr k rest (m ++ [c])
            else autoLoopGo f cr k rest m).length ≤ k
        by_cases hchk : check_screening_criteria d cr = true
        · rw [if_pos hchk]
          exact ih _ (by simp only [List.length_append, List.length_cons, List.length_nil]; omega)
        · rw [if_neg hchk]
          exact ih m h

lemma autoLoopGo_mem (f : String → Option StockData) (cr : Criteria) (k : Nat) :
    ∀ (cs : List String) (m : List String) (x : String), x ∈ autoLoopGo f cr k cs m →
    x ∈ m ∨ ∃ d, f x = some d ∧ check_screening_criteria d cr = true := by
  intro cs
  induction cs with
  | nil => intro m x h; left; simpa [autoLoopGo] using h
  | cons c rest ih =>
    intro m x h
    rw [autoLoopGo] at h
    by_cases hk : k ≤ m.length
    · rw [if_pos hk] at h; left; exact h
    · rw [if_neg hk] at h
      rcases hf : f c with _ | d
      · rw [hf] at h; exact ih _ _ h
      · rw [hf] at h
        have h2 : x ∈ (if check_screening_criteria d cr = true
            then autoLoopGo f cr k rest (m ++ [c]) else autoLoopGo f cr k rest m) := h
        by_cases hchk : check_screening_criteria d cr = true
        · rw [if_pos hchk] at h2
          rcases ih _ _ h2 with hm | hgood
          · rcases List.mem_append.mp hm with h1 | h2
            · left; exact h1
            · right
              have hx : x = c := by simpa using h2
              subst hx
              exact ⟨d, hf, hchk⟩
          · right; exact hgood
        · rw [if_neg hchk] at h2
          exact ih _ _ h2

/-- The market-cap criterion is mandatory: a code passing the check has a
present market cap at or above the configured minimum. -/
lemma check_market_cap {d : StockData} {cr : Criteria}
    (h : check_screening_criteria d cr = true) :
    ∃ m, d.market_cap = some m ∧ cr.min_market_cap ≤ m := by
  rcases hm : d.market_cap with _ | m
  · rw [check_screening_criteria, hm] at h
    simp at h
  · refine ⟨m, rfl, ?_⟩
    rw [check_screening_criteria, hm] at h
    simp only [Bool.and_eq_true, Bool.not_eq_eq_eq_not, Bool.not_true, decide_eq_false_iff_not] at h
    exact le_of_not_lt h.1.1.1.1.1.1.1

lemma mcapVal_eq (d : StockData) :
    mcapVal d = (match d.market_cap with
      | none => CellValue.str "-"
      | some m =>
          if m = 0 then CellValue.str "-"
          else CellValue.num (pyRound (m / 100000000) 0)) := by
  rcases hm : d.market_cap with _ | m
  · simp [mcapVal, pyOptDiv, pyTruthyOptQ, hm, format_value]
  · by_cases h0 : m = 0 <;>
      simp [mcapVal, pyOptDiv, pyTruthyOptQ, hm, h0, format_value]

lemma runState_def (wb : Workbook) (f : String → Option StockData) (codes : List String) :
    runState wb f codes =
      materializeAll f (get_portfolio_stocks wb) codes
        ⟨clearPhase (wb.sheets screeningName), 6, [], []⟩ := rfl

lemma runState_sheet_at (wb : Workbook) (f : String → Option StockData)
    (codes : List String) (i : Nat) (hi : i < codes.length) (c : Nat) :
    (runState wb f codes).sheet (6 + i) c =
      match f (pyStrip codes[i]) with
      | none => clearPhase (wb.sheets screeningName) (6 + i) c
      | some d =>
          writtenCell (pyStrip codes[i])
            ((get_portfolio_stocks wb).contains (pyStrip codes[i])) d (6 + i) c
            (clearPhase (wb.sheets screeningName) (6 + i) c) :=
  materializeAll_sheet_at f (get_portfolio_stocks wb) codes
    ⟨clearPhase (wb.sheets screeningName), 6, [], []⟩ i hi c

lemma runState_sheet_at_some (wb : Workbook) (f : String → Option StockData)
    (codes : List String) (i : Nat) (hi : i < codes.length) (d : StockData)
    (hf : f (pyStrip codes[i]) = some d) (c : Nat) :
    (runState wb f codes).sheet (6 + i) c =
      writtenCell (pyStrip codes[i])
        ((get_portfolio_stocks wb).contains (pyStrip codes[i])) d (6 + i) c
        (clearPhase (wb.sheets screeningName) (6 + i) c) := by
  rw [runState_sheet_at wb f codes i hi c, hf]

lemma runState_sheet_at_none (wb : Workbook) (f : String → Option StockData)
    (codes : List String) (i : Nat) (hi : i < codes.length)
    (hf : f (pyStrip codes[i]) = none) (c : Nat) :
    (runState wb f codes).sheet (6 + i) c =
      clearPhase (wb.sheets screeningName) (6 + i) c := by
  rw [runState_sheet_at wb f codes i hi c, hf]

lemma getElem_append_mid (p1 : List String) (b : String) (p2 : List String)
    (h : p1.length < (p1 ++ b :: p2).length) :
    (p1 ++ b :: p2)[p1.length] = b := by
  induction p1 with
  | nil => rfl
  | cons a as ih => simpa using ih (by simp)

-- Concrete fixtures used by witnesses and counterexamples.

/-- A workbook holding a screening sheet and a portfolio sheet. -/
def mkWorkbook (scr pf : Sheet) : Workbook :=
  ⟨[screeningName, portfolioName],
    fun n => if n = screeningName then scr else if n = portfolioName then pf else blankSheet⟩

/-- A portfolio sheet holding one code in A7. -/
def portfolioSheetWith (s : String) : Sheet :=
  fun r c => if r = 7 ∧ c = 1 then ⟨CellValue.str s, none, none, none, none, "General"⟩
  else blankCell

/-- A screening sheet with identifier "X" in A6 and a user formula with a
custom red fill and custom number format in the protected cell M6. -/
def sampleScr : Sheet := fun r c =>
  if r = 6 ∧ c = 1 then ⟨CellValue.str "X", some INPUT_COLOR, none, some centerAlign, some "thin", "General"⟩
  else if r = 6 ∧ c = 13 then
    ⟨CellValue.str "=B6*2", some "FF0000", some "Meiryo", some centerAlign, some "thin", "0.00"⟩
  else blankCell

def wbBlank : Workbook := mkWorkbook blankSheet blankSheet
def wbSample : Workbook := mkWorkbook sampleScr blankSheet
def wbHoldB : Workbook := mkWorkbook blankSheet (portfolioSheetWith "B")
def wbHoldZ : Workbook := mkWorkbook blankSheet (portfolioSheetWith "Z")
def wbNoScreen : Workbook := ⟨["Sheet1"], fun _ => blankSheet⟩

/-- A record with every optional field absent. -/
def dataBlank : StockData := ⟨"-", "プライム", none, none, none, none, none, none, none⟩

/-- A record whose market cap is present but equal to zero. -/
def dataZeroCap : StockData := ⟨"ゼロ", "プライム", some 0, none, none, none, none, none, none⟩

/-- A record passing the default criteria (market cap 200 ≥ 100). -/
def dataPass : StockData := ⟨"トヨタ自動車", "プライム", some 200, none, none, none, none, none, none⟩

/-- Fetch adapter succeeding on exactly one code. -/
def fetchOnly (code : String) (d : StockData) : String → Option StockData :=
  fun c => if c == code then some d else none

/-- Fetch adapter that always fails. -/
def fetchNone : String → Option StockData := fun _ => none

/-- Fetch adapter failing on exactly one code. -/
def fetchSkip (skip : String) (d : StockData) : String → Option StockData :=
  fun c => if c == skip then none else some d

/-- Criteria with only the mandatory market-cap minimum (100). -/
def crDefault : Criteria := ⟨100, none, none, none, none, none, none, none⟩

/-- C1 (amended): the Region Clear Phase sets the value of every cell in
rows 6-20, columns 1-24 — the owned range AND the protected manual-input
columns M-R, T, V, X alike — to empty, and modifies nothing else: fills
(including highlight fills), fonts, alignments, borders and numeric
formats of every cell, and all cells outside the window, are unchanged. -/
theorem c1_region_clear (ws : Sheet) (r c : Nat) :
    (clearPhase ws r c).value =
      (if (6 ≤ r ∧ r ≤ 20) ∧ (1 ≤ c ∧ c ≤ 24) then CellValue.empty else (ws r c).value)
    ∧ (clearPhase ws r c).fill = (ws r c).fill
    ∧ (clearPhase ws r c).font = (ws r c).font
    ∧ (clearPhase ws r c).alignment = (ws r c).alignment
    ∧ (clearPhase ws r c).border = (ws r c).border
    ∧ (clearPhase ws r c).numFmt = (ws r c).numFmt := by
  by_cases h : (6 ≤ r ∧ r ≤ 20) ∧ (1 ≤ c ∧ c ≤ 24) <;>
    simp [clearPhase_apply, h, clearedCell]

/-- C1 counterexample: the claim as stated is false on the code. The
protected cell M6 (column 13) holds a value before the clear and an empty
value afterwards (so it is modified), and the owned cell A6 keeps its
highlight fill (so the highlight is not removed). -/
theorem c1_counterexample :
    (sampleScr 6 13).value = CellValue.str "=B6*2"
    ∧ (clearPhase sampleScr 6 13).value = CellValue.empty
    ∧ (clearPhase sampleScr 6 1).fill = some INPUT_COLOR := by
  refine ⟨rfl, ?_, ?_⟩
  · simp [clearPhase_apply, clearedCell]
  · simp [clearPhase_apply, clearedCell, sampleScr]

/-- C2 (amended): there is no pre-clear snapshot and no restore. For an
identifier materialized (fetch success) at window index `i`, every cell of
the protected range of its row (columns M-R = 13-18, T = 20, V = 22, and
the memo column X = 24) ends the cycle with an empty value, the standard
input/alert fill and a thin border, center-aligned (left-aligned in the
memo column X, per line 465); only its font and numeric format survive
from the pre-cycle sheet — the prior value and fill are lost. -/
theorem c2_no_preservation (wb : Workbook) (f : String → Option StockData)
    (codes : List String) (i : Nat) (hi : i < codes.length) (d : StockData)
    (hf : f (pyStrip codes[i]) = some d) (hwin : i ≤ 14) (c : Nat)
    (hc : c ∈ ([13, 14, 15, 16, 17, 18, 20, 22, 24] : List Nat)) :
    (runState wb f codes).sheet (6 + i) c =
      ⟨CellValue.empty,
        some (if (get_portfolio_stocks wb).contains (pyStrip codes[i])
          then PORTFOLIO_ALERT_COLOR else INPUT_COLOR),
        ((wb.sheets screeningName) (6 + i) c).font,
        some (if c = 24 then leftAlign else centerAlign), some "thin",
        ((wb.sheets screeningName) (6 + i) c).numFmt⟩ := by
  rw [runState_sheet_at_some wb f codes i hi d hf c]
  fin_cases hc <;>
    simp [writtenCell, clearPhase_apply, clearedCell,
      show (6 : ℕ) ≤ 6 + i by omega, show 6 + i ≤ 20 by omega]

/-- C2 witness: concrete instances of the amended theorem at identifier
"X", whose protected cell M6 held a formula with custom fill beforehand:
column 13 (center-aligned) and the memo column 24 (left-aligned). -/
theorem c2_no_preservation_witness :
    (0 < (["X"] : List String).length)
    ∧ fetchOnly "X" dataBlank (pyStrip (["X"] : List String)[0]) = some dataBlank
    ∧ (0 : ℕ) ≤ 14
    ∧ (13 : ℕ) ∈ ([13, 14, 15, 16, 17, 18, 20, 22, 24] : List Nat)
    ∧ (24 : ℕ) ∈ ([13, 14, 15, 16, 17, 18, 20, 22, 24] : List Nat)
    ∧ (runState wbSample (fetchOnly "X" dataBlank) ["X"]).sheet (6 + 0) 13 =
      ⟨CellValue.empty,
        some (if (get_portfolio_stocks wbSample).contains (pyStrip (["X"] : List String)[0])
          then PORTFOLIO_ALERT_COLOR else INPUT_COLOR),
        ((wbSample.sheets screeningName) (6 + 0) 13).font,
        some (if (13 : Nat) = 24 then leftAlign else centerAlign), some "thin",
        ((wbSample.sheets screeningName) (6 + 0) 13).numFmt⟩
    ∧ (runState wbSample (fetchOnly "X" dataBlank) ["X"]).sheet (6 + 0) 24 =
      ⟨CellValue.empty,
        some (if (get_portfolio_stocks wbSample).contains (pyStrip (["X"] : List String)[0])
          then PORTFOLIO_ALERT_COLOR else INPUT_COLOR),
        ((wbSample.sheets screeningName) (6 + 0) 24).font,
        some (if (24 : Nat) = 24 then leftAlign else centerAlign), some "thin",
        ((wbSample.sheets screeningName) (6 + 0) 24).numFmt⟩ :=
  ⟨by decide, by decide, by decide, by decide, by decide,
    c2_no_preservation wbSample (fetchOnly "X" dataBlank) ["X"] 0 (by decide) dataBlank
      (by decide) (by decide) 13 (by decide),
    c2_no_preservation wbSample (fetchOnly "X" dataBlank) ["X"] 0 (by decide) dataBlank
      (by decide) (by decide) 24 (by decide)⟩

/-- C2 counterexample: the claim as stated is false on the code. For
identifier "X" present in the table before the cycle and in the working
list, the protected cell M6 held the formula "=B6*2" with a custom fill
before the cycle, and after the cycle (successful save) its value is empty
and its fill is the neutral input color — value and fill are not
preserved. -/
theorem c2_counterexample :
    ((wbSample.sheets screeningName) 6 13).value = CellValue.str "=B6*2"
    ∧ ((wbSample.sheets screeningName) 6 13).fill = some "FF0000"
    ∧ ((update_screening_run (some wbSample) true (fetchOnly "X" dataBlank) ["X"]).persisted.map
        (fun wb => ((wb.sheets screeningName) 6 13).value)) = some CellValue.empty
    ∧ ((update_screening_run (some wbSample) true (fetchOnly "X" dataBlank) ["X"]).persisted.map
        (fun wb => ((wb.sheets screeningName) 6 13).fill)) = some (some INPUT_COLOR) := by
  refine ⟨rfl, rfl, ?_, ?_⟩ <;> decide

/-- C3 (amended): the working list handed to the update cycle is just the
de-duplicated primary list (first occurrence wins; `buildWorkingList`);
identifiers of the holdings set that are absent from it are never appended
and receive no row: every string value standing in column A of the row
window after the cycle is the trim of some working-list entry. -/
theorem c3_working_list (raw : List String) (wb : Workbook)
    (f : String → Option StockData) (codes : List String) (r : Nat) (s : String) :
    (buildWorkingList raw).Nodup
    ∧ (∀ x, x ∈ buildWorkingList raw ↔ x ∈ raw)
    ∧ (6 ≤ r → r ≤ 20 → ((runState wb f codes).sheet r 1).value = CellValue.str s →
        s ∈ codes.map (fun c0 => pyStrip c0)) := by
  refine ⟨dedupFirst_nodup raw, fun x => dedupFirst_mem raw x, ?_⟩
  intro h6 h20 hv
  rw [runState_def] at hv
  rcases materializeAll_colA f (get_portfolio_stocks wb) codes _ r s hv with h | h
  · exfalso
    have hc : clearPhase (wb.sheets screeningName) r 1 =
        clearedCell ((wb.sheets screeningName) r 1) := by
      rw [clearPhase_apply, if_pos ⟨⟨h6, h20⟩, by omega, by omega⟩]
    simp only [hc, clearedCell] at h
    exact CellValue.noConfusion h
  · exact h

/-- C3 witness: concrete instance — primary list ["A"], holdings {"B"};
row 6 column A holds "A", and "A" indeed comes from the working list. -/
theorem c3_working_list_witness :
    ((6 : ℕ) ≤ 6) ∧ ((6 : ℕ) ≤ 20)
    ∧ ((runState wbHoldB (fetchOnly "A" dataBlank) ["A"]).sheet 6 1).value = CellValue.str "A"
    ∧ "A" ∈ (["A"] : List String).map (fun c0 => pyStrip c0) :=
  ⟨by decide, by decide, by decide,
    (c3_working_list ["A"] wbHoldB (fetchOnly "A" dataBlank) ["A"] 6 "A").2.2
      (by decide) (by decide) (by decide)⟩

/-- C3 counterexample: the claim as stated is false on the code. With
primary list ["A"] and holdings {"B"}, "B" receives no row: after the
cycle column A of the whole window is "A" followed by empty cells — the
holdings-only identifier is not appended. -/
theorem c3_counterexample :
    get_portfolio_stocks wbHoldB = ["B"]
    ∧ ((pyRange 6 21).map
        (fun r => ((runState wbHoldB (fetchOnly "A" dataBlank) ["A"]).sheet r 1).value))
      = CellValue.str "A" :: List.replicate 14 CellValue.empty := by
  refine ⟨by decide, by decide⟩

/-- C4 (amended): the Portfolio-Alert flag is `code in portfolio_stocks`
alone — membership in the holdings set, with no "absent from the primary
list" clause. Every materialized row's key cell carries the alert fill iff
the (trimmed) identifier is held, even when it is also in the primary list. -/
theorem c4_alert_flag (wb : Workbook) (f : String → Option StockData)
    (codes : List String) (i : Nat) (hi : i < codes.length) (d : StockData)
    (hf : f (pyStrip codes[i]) = some d) :
    ((runState wb f codes).sheet (6 + i) 1).fill =
      some (if (get_portfolio_stocks wb).contains (pyStrip codes[i])
        then PORTFOLIO_ALERT_COLOR else INPUT_COLOR) := by
  rw [runState_sheet_at_some wb f codes i hi d hf 1]
  simp [writtenCell]

/-- C4 witness: identifier "Z" held and in the working list gets the alert
fill (per the amended flag definition). -/
theorem c4_alert_flag_witness :
    (0 < (["Z"] : List String).length)
    ∧ fetchOnly "Z" dataBlank (pyStrip (["Z"] : List String)[0]) = some dataBlank
    ∧ ((runState wbHoldZ (fetchOnly "Z" dataBlank) ["Z"]).sheet (6 + 0) 1).fill =
      some (if (get_portfolio_stocks wbHoldZ).contains (pyStrip (["Z"] : List String)[0])
        then PORTFOLIO_ALERT_COLOR else INPUT_COLOR) :=
  ⟨by decide, by decide,
    c4_alert_flag wbHoldZ (fetchOnly "Z" dataBlank) ["Z"] 0 (by decide) dataBlank (by decide)⟩

/-- C4 counterexample: the claim as stated is false on the code. "Z" is in
the holdings set AND in the primary working list, yet its row carries the
alert highlight (the claim says it must not). -/
theorem c4_counterexample :
    get_portfolio_stocks wbHoldZ = ["Z"]
    ∧ "Z" ∈ (["Z"] : List String)
    ∧ ((runState wbHoldZ (fetchOnly "Z" dataBlank) ["Z"]).sheet 6 1).fill
      = some PORTFOLIO_ALERT_COLOR
    ∧ PORTFOLIO_ALERT_COLOR ≠ INPUT_COLOR := by
  refine ⟨by decide, by decide, by decide, by decide⟩

/-- C5 (amended): only the automatic-screening path is bounded by the
15-row window capacity; the manual comma-separated entry path is
unbounded, so a manually entered working list can exceed 15 rows (and its
tail rows fall outside the cleared window). -/
theorem c5_capacity :
    (∀ (f : String → Option StockData) (cr : Criteria),
      (buildWorkingList (auto_screening f cr 15)).length ≤ 15)
    ∧ ∃ lines : List String, 15 < (buildWorkingList (manualCodes lines)).length := by
  constructor
  · intro f cr
    exact le_trans (dedupFirst_length_le _)
      (autoLoopGo_length_le f cr 15 candidate_codes [] (by simp))
  · exact ⟨["a01,a02,a03,a04,a05,a06,a07,a08,a09,a10,a11,a12,a13,a14,a15,a16"], by decide⟩

/-- C5 counterexample: the claim as stated is false on the code. Sixteen
distinct manually entered codes survive de-duplication, giving a working
list of length 16 > 15. -/
theorem c5_counterexample :
    ¬ ((buildWorkingList (manualCodes
        ["a01,a02,a03,a04,a05,a06,a07,a08,a09,a10,a11,a12,a13,a14,a15,a16"])).length ≤ 15) := by
  decide

/-- C6 (confirmed): a failing fetch advances the physical row cursor by one
and writes nothing: the cursor ends at 6 + length (one row per entry, no
compaction), the failing identifier's row is exactly as the clear phase
left it (hence, within the 15-row window, entirely blank in columns 1-24),
and every successfully fetched identifier at working-list index `i` has
its code written at physical row `6 + i`. -/
theorem c6_fetch_failure (wb : Workbook) (f : String → Option StockData)
    (p1 : List String) (b : String) (p2 : List String) (hb : f (pyStrip b) = none) :
    (runState wb f (p1 ++ b :: p2)).row = 6 + (p1 ++ b :: p2).length
    ∧ (∀ c, (runState wb f (p1 ++ b :: p2)).sheet (6 + p1.length) c
        = clearPhase (wb.sheets screeningName) (6 + p1.length) c)
    ∧ (p1.length ≤ 14 → ∀ c, 1 ≤ c → c ≤ 24 →
        ((runState wb f (p1 ++ b :: p2)).sheet (6 + p1.length) c).value = CellValue.empty)
    ∧ ∀ (i : Nat) (hi : i < (p1 ++ b :: p2).length) (d : StockData),
        f (pyStrip (p1 ++ b :: p2)[i]) = some d →
        ((runState wb f (p1 ++ b :: p2)).sheet (6 + i) 1).value
          = CellValue.str (pyStrip (p1 ++ b :: p2)[i]) := by
  have hlen : p1.length < (p1 ++ b :: p2).length := by simp
  have hgetb : f (pyStrip (p1 ++ b :: p2)[p1.length]) = none := by
    rw [getElem_append_mid p1 b p2 hlen]
    exact hb
  have huntouched : ∀ c, (runState wb f (p1 ++ b :: p2)).sheet (6 + p1.length) c
      = clearPhase (wb.sheets screeningName) (6 + p1.length) c :=
    fun c => runState_sheet_at_none wb f _ p1.length hlen hgetb c
  refine ⟨?_, huntouched, ?_, ?_⟩
  · exact materializeAll_row f (get_portfolio_stocks wb) (p1 ++ b :: p2)
      ⟨clearPhase (wb.sheets screeningName), 6, [], []⟩
  · intro h14 c hc1 hc24
    rw [huntouched c, clearPhase_apply, if_pos ⟨⟨by omega, by omega⟩, hc1, hc24⟩]
    rfl
  · intro i hi d hf
    rw [runState_sheet_at_some wb f _ i hi d hf 1]
    simp [writtenCell]

/-- C6 witness: codes [A, B, C] with B failing — A's code sits in row 6,
row 7 is blank, C's code sits in row 8, cursor ends at 9. -/
theorem c6_fetch_failure_witness :
    fetchSkip "B" dataBlank (pyStrip "B") = none
    ∧ (runState wbBlank (fetchSkip "B" dataBlank) ["A", "B", "C"]).row = 9
    ∧ ((runState wbBlank (fetchSkip "B" dataBlank) ["A", "B", "C"]).sheet 7 5).value
      = CellValue.empty
    ∧ ((runState wbBlank (fetchSkip "B" dataBlank) ["A", "B", "C"]).sheet 6 1).value
      = CellValue.str "A"
    ∧ ((runState wbBlank (fetchSkip "B" dataBlank) ["A", "B", "C"]).sheet 8 1).value
      = CellValue.str "C" := by
  refine ⟨by decide, ?_, ?_, ?_, ?_⟩
  · exact (c6_fetch_failure wbBlank (fetchSkip "B" dataBlank) ["A"] "B" ["C"] (by decide)).1
  · exact (c6_fetch_failure wbBlank (fetchSkip "B" dataBlank) ["A"] "B" ["C"] (by decide)).2.2.1
      (by decide) 5 (by decide) (by decide)
  · exact (c6_fetch_failure wbBlank (fetchSkip "B" dataBlank) ["A"] "B" ["C"] (by decide)).2.2.2
      0 (by decide) dataBlank (by decide)
  · exact (c6_fetch_failure wbBlank (fetchSkip "B" dataBlank) ["A"] "B" ["C"] (by decide)).2.2.2
      2 (by decide) dataBlank (by decide)

/-- C7 (amended): an absent field renders as the dash and leaves the number
format untouched, never zero; a present field is written rounded per its
field rule with its format — EXCEPT market capitalization, where the
Python truthiness guard `if data['market_cap']` also sends a present value
of 0 to the dash. Market cap is divided by 10^8 at write time (trading
value was already divided during fetch derivation and is not divided
again here). -/
theorem c7_field_formatting (ws : Sheet) (row : Nat) (code : String) (isP : Bool)
    (d : StockData) :
    ((writeRow ws row code isP d) row 4).value =
      (match d.market_cap with
       | none => CellValue.str "-"
       | some m => if m = 0 then CellValue.str "-"
          else CellValue.num (pyRound (m / 100000000) 0))
    ∧ ((writeRow ws row code isP d) row 4).numFmt =
      (match d.market_cap with
       | none => (ws row 4).numFmt
       | some m => if m = 0 then (ws row 4).numFmt else "#,##0")
    ∧ ((writeRow ws row code isP d) row 5).value =
      (match d.equity_ratio_pct with
       | none => CellValue.str "-"
       | some v => CellValue.num (pyRound v 1))
    ∧ ((writeRow ws row code isP d) row 5).numFmt =
      (match d.equity_ratio_pct with
       | none => (ws row 5).numFmt
       | some _ => "0.0")
    ∧ ((writeRow ws row code isP d) row 6).value =
      (match d.trading_value with
       | none => CellValue.str "-"
       | some v => CellValue.num (pyRound v 0))
    ∧ ((writeRow ws row code isP d) row 6).numFmt =
      (match d.trading_value with
       | none => (ws row 6).numFmt
       | some _ => "#,##0")
    ∧ ((writeRow ws row code isP d) row 7).value =
      (match d.trailing_pe with
       | none => CellValue.str "-"
       | some v => CellValue.num (pyRound v 1))
    ∧ ((writeRow ws row code isP d) row 7).numFmt =
      (match d.trailing_pe with
       | none => (ws row 7).numFmt
       | some _ => "0.0")
    ∧ ((writeRow ws row code isP d) row 8).value =
      (match d.price_to_book with
       | none => CellValue.str "-"
       | some v => CellValue.num (pyRound v 1))
    ∧ ((writeRow ws row code isP d) row 8).numFmt =
      (match d.price_to_book with
       | none => (ws row 8).numFmt
       | some _ => "0.0")
    ∧ ((writeRow ws row code isP d) row 10).value =
      (match d.revenue_growth with
       | none => CellValue.str "-"
       | some v => CellValue.num (pyRound v 1))
    ∧ ((writeRow ws row code isP d) row 10).numFmt =
      (match d.revenue_growth with
       | none => (ws row 10).numFmt
       | some _ => "0.0")
    ∧ ((writeRow ws row code isP d) row 11).value =
      (match d.return_on_equity with
       | none => CellValue.str "-"
       | some v => CellValue.num (pyRound v 1))
    ∧ ((writeRow ws row code isP d) row 11).numFmt =
      (match d.return_on_equity with
       | none => (ws row 11).numFmt
       | some _ => "0.0") := by
  refine ⟨?_, ?_, ?_, ?_, ?_, ?_, ?_, ?_, ?_, ?_, ?_, ?_, ?_, ?_⟩ <;>
    rw [writeRow_apply, if_pos rfl]
  · rcases hm : d.market_cap with _ | m
    · simp [writtenCell, mcapVal_eq, hm]
    · by_cases h0 : m = 0 <;> simp [writtenCell, mcapVal_eq, hm, h0]
  · rcases hm : d.market_cap with _ | m
    · simp [writtenCell, mcapVal_eq, hm]
    · by_cases h0 : m = 0 <;> simp [writtenCell, mcapVal_eq, hm, h0]
  · rcases hm : d.equity_ratio_pct with _ | v <;>
      simp [writtenCell, equityVal, format_value, hm]
  · rcases hm : d.equity_ratio_pct with _ | v <;>
      simp [writtenCell, equityVal, format_value, hm]
  · rcases hm : d.trading_value with _ | v <;>
      simp [writtenCell, tradingVal, format_value, hm]
  · rcases hm : d.trading_value with _ | v <;>
      simp [writtenCell, tradingVal, format_value, hm]
  · rcases hm : d.trailing_pe with _ | v <;>
      simp [writtenCell, perVal, format_value, hm]
  · rcases hm : d.trailing_pe with _ | v <;>
      simp [writtenCell, perVal, format_value, hm]
  · rcases hm : d.price_to_book with _ | v <;>
      simp [writtenCell, pbrVal, format_value, hm]
  · rcases hm : d.price_to_book with _ | v <;>
      simp [writtenCell, pbrVal, format_value, hm]
  · rcases hm : d.revenue_growth with _ | v <;>
      simp [writtenCell, growthVal, format_value, hm]
  · rcases hm : d.revenue_growth with _ | v <;>
      simp [writtenCell, growthVal, format_value, hm]
  · rcases hm : d.return_on_equity with _ | v <;>
      simp [writtenCell, roeVal, format_value, hm]
  · rcases hm : d.return_on_equity with _ | v <;>
      simp [writtenCell, roeVal, format_value, hm]

/-- C7 counterexample: the claim as stated is false on the code. A PRESENT
market capitalization equal to 0 is rendered as the dash, not as the
rounded number the per-field rule demands. -/
theorem c7_counterexample :
    dataZeroCap.market_cap = some 0
    ∧ ((writeRow blankSheet 6 "7203" false dataZeroCap) 6 4).value = CellValue.str "-"
    ∧ ((writeRow blankSheet 6 "7203" false dataZeroCap) 6 4).value
      ≠ CellValue.num (pyRound ((0 : ℚ) / 100000000) 0) := by
  refine ⟨rfl, ?_, ?_⟩
  · rw [writeRow_apply, if_pos rfl]
    simp [writtenCell, mcapVal_eq, dataZeroCap]
  · rw [writeRow_apply, if_pos rfl]
    simp [writtenCell, mcapVal_eq, dataZeroCap]

/-- C8 (amended): in the materialization loop a 0.5-unit blocking sleep
follows every SUCCESSFUL fetch attempt; after a failed fetch the `continue`
skips the sleep, so the next fetch attempt begins with no delay. The event
trace is exactly: for each code in order, a fetch event, followed by a
sleep event iff the fetch returned data. -/
theorem c8_rate_limit (wb : Workbook) (f : String → Option StockData)
    (codes : List String) :
    (runState wb f codes).trace =
      codes.flatMap (fun c0 =>
        Event.fetchEv (pyStrip c0) :: (match f (pyStrip c0) with
          | some _ => [Event.sleepEv (1/2)]
          | none => [])) := by
  have h := materializeAll_trace f (get_portfolio_stocks wb) codes
    ⟨clearPhase (wb.sheets screeningName), 6, [], []⟩
  simpa using h

/-- C8 counterexample: the claim as stated is false on the code. With two
codes whose fetches both fail, the trace is two adjacent fetch events with
no sleep between them: no delay elapsed between the two attempts. -/
theorem c8_counterexample :
    (runState wbBlank fetchNone ["1111", "2222"]).trace
      = [Event.fetchEv "1111", Event.fetchEv "2222"]
    ∧ noAdjFetch [Event.fetchEv "1111", Event.fetchEv "2222"] = false := by
  refine ⟨by decide, by decide⟩

/-- C9 (confirmed): an open failure exits with status 1 touching nothing; a
missing screening sheet exits with status 1 before any mutation (the
workbook is returned as loaded); a save failure exits with status 1 and
the persisted file keeps its original content. -/
theorem c9_fatal_io (wb : Workbook) (saveOk : Bool) (f : String → Option StockData)
    (codes : List String) :
    (update_screening_run none saveOk f codes = ⟨some 1, none, [], []⟩)
    ∧ (wb.sheetnames.contains screeningName = false →
        update_screening_run (some wb) saveOk f codes = ⟨some 1, some wb, [], []⟩)
    ∧ (update_screening_run (some wb) false f codes).exitCode = some 1
    ∧ (update_screening_run (some wb) false f codes).persisted = some wb := by
  refine ⟨rfl, ?_, ?_, ?_⟩
  · intro h
    have hm : screeningName ∉ wb.sheetnames := by simpa using h
    simp [update_screening_run, h, hm]
  · simp only [update_screening_run]
    split
    · rfl
    · simp
  · simp only [update_screening_run]
    split
    · rfl
    · simp

/-- C9 witness: a workbook without the screening sheet makes the run exit 1
with the workbook unmodified. -/
theorem c9_fatal_io_witness :
    wbNoScreen.sheetnames.contains screeningName = false
    ∧ update_screening_run (some wbNoScreen) true fetchNone []
      = ⟨some 1, some wbNoScreen, [], []⟩ :=
  ⟨by decide, (c9_fatal_io wbNoScreen true fetchNone []).2.1 (by decide)⟩

/-- C10 (confirmed): the automatic screening returns at most 15 codes, and
every returned code had a successful fetch whose data passed every
criterion — in particular its market capitalization is present and at
least the configured minimum, that criterion being mandatory. -/
theorem c10_auto_screening (f : String → Option StockData) (cr : Criteria) :
    (auto_screening f cr 15).length ≤ 15
    ∧ ∀ c, c ∈ auto_screening f cr 15 →
        ∃ d, f c = some d ∧ check_screening_criteria d cr = true
          ∧ ∃ m, d.market_cap = some m ∧ cr.min_market_cap ≤ m := by
  constructor
  · exact autoLoopGo_length_le f cr 15 candidate_codes [] (by simp)
  · intro c hc
    rcases autoLoopGo_mem f cr 15 candidate_codes [] c hc with hm | ⟨d, hf, hchk⟩
    · simp at hm
    · exact ⟨d, hf, hchk, check_market_cap hchk⟩

/-- C10 witness: with a fetch succeeding only on "7203" (market cap 200)
and the minimum set to 100, "7203" is returned and satisfies the
guarantees. -/
theorem c10_auto_screening_witness :
    "7203" ∈ auto_screening (fetchOnly "7203" dataPass) crDefault 15
    ∧ ∃ d, fetchOnly "7203" dataPass "7203" = some d
        ∧ check_screening_criteria d crDefault = true
        ∧ ∃ m, d.market_cap = some m ∧ crDefault.min_market_cap ≤ m :=
  ⟨by decide,
    (c10_auto_screening (fetchOnly "7203" dataPass) crDefault).2 "7203" (by decide)⟩

end Screening
